import Mathlib

/-!
Shallow embedding of `src/classes/mediaservers/jellyfin.js` (class `JellyfinMS`).

JavaScript values are modelled by `JSVal`; numbers are rationals plus an
explicit `nan` (IEEE-754 rounding is not observable at the magnitudes the
adapter handles).  Exceptions are modelled with `Option`: `none` at a
throw point, and a `try { .. } catch` becomes `Option.getD`.  The fetch
collaborator (axios) is a parameter: `none` models a rejected request
(network error, timeout, or non-2xx status), `some resp` a resolved
response object whose `data` field carries the parsed JSON body.
-/

namespace Posterr.Jellyfin

mutual
/-- A JavaScript runtime value.  `nan` is kept apart from `num` so that
`NaN`'s falsiness and non-numeric coercions are explicit. -/
inductive JSVal : Type where
  | null
  | undefined
  | bool (b : Bool)
  | num (q : ℚ)
  | nan
  | str (s : String)
  | arr (elems : JSList)
  | obj (fields : JSFields)
deriving DecidableEq

/-- Elements of a JavaScript array. -/
inductive JSList : Type where
  | nil
  | cons (hd : JSVal) (tl : JSList)
deriving DecidableEq

/-- Own enumerable fields of a JavaScript object. -/
inductive JSFields : Type where
  | nil
  | cons (key : String) (val : JSVal) (tl : JSFields)
deriving DecidableEq
end

def JSList.toList : JSList → List JSVal
  | .nil => []
  | .cons x xs => x :: xs.toList

def JSList.ofList : List JSVal → JSList
  | [] => .nil
  | x :: xs => .cons x (JSList.ofList xs)

/-- Own-property lookup. -/
def JSFields.find? (key : String) : JSFields → Option JSVal
  | .nil => none
  | .cons k v tl => if k == key then some v else JSFields.find? key tl

def JSFields.ofList : List (String × JSVal) → JSFields
  | [] => .nil
  | (k, v) :: fs => .cons k v (JSFields.ofList fs)

/-- Array literal. -/
def jarr (xs : List JSVal) : JSVal := .arr (JSList.ofList xs)

/-- Object literal. -/
def jobj (fs : List (String × JSVal)) : JSVal := .obj (JSFields.ofList fs)

/-- JavaScript truthiness: `null`, `undefined`, `false`, `0`, `NaN` and the
empty string are falsy; every object and array (even `[]`) is truthy. -/
def truthy : JSVal → Bool
  | .null => false
  | .undefined => false
  | .bool b => b
  | .num q => decide (q ≠ 0)
  | .nan => false
  | .str s => decide (s ≠ "")
  | .arr _ => true
  | .obj _ => true

/-- The value of `a || b`. -/
def jsOr (a b : JSVal) : JSVal := if truthy a then a else b

/-- The value of `a && b`. -/
def jsAnd (a b : JSVal) : JSVal := if truthy a then b else a

/-- The test `v != null` (loose inequality): false exactly on `null` and
`undefined`. -/
def looseNeNull : JSVal → Bool
  | .null => false
  | .undefined => false
  | _ => true

/-- Property read on a receiver that is not `null`/`undefined`: own field of
an object, `undefined` for a missing field and for primitives (which box).
Call sites guard the receiver; reads on `null`/`undefined` (which throw)
go through `getPropOpt`. -/
def getPropSafe (v : JSVal) (key : String) : JSVal :=
  match v with
  | .obj fs => (fs.find? key).getD .undefined
  | _ => .undefined

/-- Property read that models the `TypeError` thrown by a read on
`null`/`undefined` as `none`. -/
def getPropOpt (v : JSVal) (key : String) : Option JSVal :=
  match v with
  | .null => none
  | .undefined => none
  | _ => some (getPropSafe v key)

/-- Digits of a decimal literal, most significant first. -/
def digitsToNat (cs : List Char) : ℕ :=
  cs.foldl (fun a c => a * 10 + (c.toNat - 48)) 0

/-- `Number(s)` for a string, `none` meaning `NaN`.  Models the trimmed
decimal grammar (optional sign, digits, optional fraction); exponents,
hexadecimal literals and `Infinity` are not modelled — no claim coerces
such strings. -/
def strToNumber (s : String) : Option ℚ :=
  let t := s.trim
  if t = "" then some 0
  else
    let (sign, rest) : ℚ × List Char :=
      match t.toList with
      | '-' :: r => (-1, r)
      | '+' :: r => (1, r)
      | r => (1, r)
    let (intPart, rem) := rest.span Char.isDigit
    match rem with
    | [] => if intPart = [] then none else some (sign * digitsToNat intPart)
    | '.' :: fracRem =>
      let (fracPart, rem2) := fracRem.span Char.isDigit
      if rem2 = [] then
        if intPart = [] ∧ fracPart = [] then none
        else some (sign * ((digitsToNat intPart : ℚ) +
          (digitsToNat fracPart : ℚ) / (10 : ℚ) ^ fracPart.length))
      else none
    | _ => none

/-- `Number(v)` (the ToNumber coercion), `none` meaning `NaN`.  The
array-to-number path (via `toString`) is not modelled — no claim coerces an
array; a plain object coerces through `"[object Object]"` to `NaN`. -/
def toNumber : JSVal → Option ℚ
  | .null => some 0
  | .undefined => none
  | .bool b => some (if b then 1 else 0)
  | .num q => some q
  | .nan => none
  | .str s => strToNumber s
  | .arr _ => none
  | .obj _ => none

/-- `_ticksToMs(ticks)` (jellyfin.js lines 38–45):
`if (!ticks && ticks !== 0) return null; const n = Number(ticks);
if (isNaN(n)) return null; return Math.floor(n / 10000);` -/
def ticksToMs (ticks : JSVal) : JSVal :=
  if !truthy ticks && !(ticks == .num 0) then .null
  else
    match toNumber ticks with
    | none => .null
    | some n => .num ((⌊n / 10000⌋ : ℤ) : ℚ)

/-- JavaScript's decimal rendering of a number.  Integral values print as in
JS; non-integral rationals use the `ℚ` printer as an approximation of the
float shortest-round-trip form (no claim stringifies a non-integer). -/
def ratToJSString (q : ℚ) : String :=
  if q.den == 1 then toString q.num else toString q

/-- `String(v)` / template-literal coercion.  The array path (recursive
comma join) is not modelled — no claim stringifies an array. -/
def jsToString : JSVal → String
  | .null => "null"
  | .undefined => "undefined"
  | .bool true => "true"
  | .bool false => "false"
  | .num q => ratToJSString q
  | .nan => "NaN"
  | .str s => s
  | .obj _ => "[object Object]"
  | .arr _ => ""

/-- Characters `encodeURIComponent` leaves unescaped: ASCII alphanumerics
and `- _ . ! ~ *  ( )` plus the apostrophe (code 39). -/
def isUnreservedChar (c : Char) : Bool :=
  c.isAlphanum || c == '-' || c == '_' || c == '.' || c == '!' ||
    c == '~' || c == '*' || c == Char.ofNat 39 || c == '(' || c == ')'

/-- UTF-8 bytes of a code point. -/
def utf8Bytes (n : ℕ) : List ℕ :=
  if n < 128 then [n]
  else if n < 2048 then [192 + n / 64, 128 + n % 64]
  else if n < 65536 then [224 + n / 4096, 128 + (n / 64) % 64, 128 + n % 64]
  else [240 + n / 262144, 128 + (n / 4096) % 64, 128 + (n / 64) % 64, 128 + n % 64]

def hexDigitChar (n : ℕ) : Char :=
  if n < 10 then Char.ofNat (48 + n) else Char.ofNat (55 + n)

def percentEncodeChar (c : Char) : String :=
  (utf8Bytes c.toNat).foldl
    (fun a b =>
      a ++ "%" ++ String.singleton (hexDigitChar (b / 16)) ++
        String.singleton (hexDigitChar (b % 16)))
    ""

/-- `encodeURIComponent(v)` (the argument is coerced to a string first). -/
def encodeURIComponent (v : JSVal) : String :=
  (jsToString v).toList.foldl
    (fun a c => if isUnreservedChar c then a.push c else a ++ percentEncodeChar c) ""

/-- `_imageUrl(itemId, type, maxWidth)` (jellyfin.js lines 48–53): the
size-hint suffix `qs` is built as `'?maxWidth=' + maxWidth` and appended
after the `?type=...` query — note the source uses a second `?`, not `&`.
An omitted `maxWidth` argument is `undefined` (falsy). -/
def imageUrl (itemId ty maxWidth : JSVal) : String :=
  let qs := if truthy maxWidth then "?maxWidth=" ++ jsToString maxWidth else ""
  "/jellyfin/image/" ++ encodeURIComponent itemId ++ "?type=" ++
    encodeURIComponent ty ++ qs

/-- `v.toLowerCase()`: defined only on strings; on every other receiver the
call throws (`none`) — primitives box to objects without the method only
for `String`, and `null`/`undefined` reads throw. -/
def jsToLowerCase : JSVal → Option String
  | .str s => some s.toLower
  | _ => none

/-- The progress-percentage expression shared by jellyfin.js line 77
(`progressPercent`) and line 190 (`resumePercent`):
`(runtime && posMs) ? Math.round((posMs / runtime) * 100) : 0`.
JS `Math.round` is `⌊x + 1/2⌋`, which is Mathlib's `round` on `ℚ`.
Division by zero (an IEEE infinity in JS) and NaN operands are both
modelled as `nan`; no claim reaches either. -/
def progressPercentOf (runtime posMs : JSVal) : JSVal :=
  if truthy (jsAnd runtime posMs) then
    match toNumber posMs, toNumber runtime with
    | some p, some r => if r = 0 then .nan else .num ((round (p / r * 100) : ℤ) : ℚ)
    | _, _ => .nan
  else .num 0

/-- The card object built by `_mapSessionToCard` (jellyfin.js lines 65–97).
`userId : Option JSVal` distinguishes a present field (possibly `null`)
from one removed by `delete` (`none`). -/
structure Card where
  title : JSVal
  mediaType : String
  seriesTitle : JSVal
  episodeName : JSVal
  season : JSVal
  episode : JSVal
  runtimeMs : JSVal
  progressMs : JSVal
  progressPercent : JSVal
  playerName : JSVal
  playerIP : JSVal
  playerDevice : JSVal
  itemId : JSVal
  sessionId : JSVal
  userId : Option JSVal
  posterUrl : JSVal
  backdropUrl : JSVal
  progress : JSVal
  theme : String
  raw : JSVal
deriving DecidableEq

/-- `_mapSessionToCard(session)` (jellyfin.js lines 56–103).  The source
wraps the whole body in `try { .. } catch { return null }`; the two throw
points are the property reads on a `null`/`undefined` session and
`(item.Type || '').toLowerCase()` when `item.Type` is a truthy
non-string. -/
def mapSessionToCard (session : JSVal) : Option Card :=
  match session with
  | .null => none
  | .undefined => none
  | _ =>
    let item := jsOr (getPropSafe session "NowPlayingItem") (jobj [])
    let ps := jsOr (getPropSafe session "PlayState") (jobj [])
    let user := jsOr (getPropSafe session "User") (jobj [])
    let posMs := jsOr (ticksToMs (getPropSafe ps "PositionTicks"))
      (if looseNeNull (getPropSafe ps "Position") then getPropSafe ps "Position"
       else .null)
    let runtime :=
      if truthy (getPropSafe item "RunTimeTicks") then
        ticksToMs (getPropSafe item "RunTimeTicks")
      else jsOr (getPropSafe item "RunTime") .null
    match jsToLowerCase (jsOr (getPropSafe item "Type") (.str "")) with
    | none => none
    | some mt =>
      let client := getPropSafe session "Client"
      some {
        title := jsOr (getPropSafe item "Name") (.str "")
        mediaType := mt
        seriesTitle := jsOr (getPropSafe item "SeriesName") .null
        episodeName := jsOr (getPropSafe item "Name") .null
        season := jsOr (getPropSafe item "ParentIndexNumber") .null
        episode := jsOr (getPropSafe item "IndexNumber") .null
        runtimeMs := runtime
        progressMs := posMs
        progressPercent := progressPercentOf runtime posMs
        playerName := jsOr (jsOr (getPropSafe session "DeviceName")
          (jsAnd client (getPropSafe client "Name"))) .null
        playerIP := jsOr (getPropSafe session "RemoteEndPoint") .null
        playerDevice := jsOr (jsAnd (getPropSafe session "Device") (getPropSafe session "Device"))
          (jsOr (jsAnd client (getPropSafe client "Name")) .null)
        itemId := jsOr (getPropSafe item "Id") .null
        sessionId := jsOr (getPropSafe session "Id") .null
        userId := some (jsOr (getPropSafe session "UserId")
          (jsOr (jsAnd user (getPropSafe user "Id")) .null))
        posterUrl :=
          if truthy (getPropSafe item "Id") then
            .str (imageUrl (getPropSafe item "Id") (.str "Primary") .undefined)
          else .null
        backdropUrl :=
          if truthy (getPropSafe item "Id") then
            .str (imageUrl (getPropSafe item "Id") (.str "Backdrop") .undefined)
          else .null
        progress := progressPercentOf runtime posMs
        theme :=
          if getPropSafe item "Type" == .str "Movie" then "movie"
          else if getPropSafe item "Type" == .str "Episode" then "episode"
          else ""
        raw := session
      }

/-- `sessions.map(s => this._mapSessionToCard(s)).filter(c => c !== null)`
(jellyfin.js lines 118–120).  `.map` on a non-array value throws. -/
def sessionsToCards (sessions : JSVal) : Option (List Card) :=
  match sessions with
  | .arr xs => some ((xs.toList.map mapSessionToCard).filterMap id)
  | _ => none

/-- The `try` body of `GetNowScreening` (jellyfin.js lines 113–132) up to
the optional hide-user step: await the `/Sessions` request, default the
body with `resp.data || []`, map and filter.  The `excludeLibraries`
branch (lines 123–125) has an empty body and is omitted.  The remaining
filter parameters (`playThemes`, …, `filterUsers`) never affect the
result and are omitted from the model's signature. -/
def nowScreeningCards (sessionsResp : Option JSVal) : Option (List Card) := do
  let resp ← sessionsResp
  let d ← getPropOpt resp "data"
  sessionsToCards (jsOr d (.arr .nil))

/-- `GetNowScreening` (jellyfin.js lines 112–137): the `try` body above,
then `if (hideUser === true || hideUser === 'true')` each card's `userId`
is deleted; the surrounding `catch` returns `[]`. -/
def GetNowScreening (sessionsResp : Option JSVal) (hideUser : JSVal) : List Card :=
  (do
    let cards ← nowScreeningCards sessionsResp
    if hideUser == JSVal.bool true || hideUser == JSVal.str "true" then
      pure (cards.map fun c : Card => { c with userId := none })
    else
      pure cards).getD []

/-- The card object built inside `GetOnDemand`'s map (jellyfin.js lines
178–196). -/
structure ODCard where
  title : JSVal
  mediaType : String
  seriesTitle : JSVal
  episodeName : JSVal
  season : JSVal
  episode : JSVal
  itemId : JSVal
  posterUrl : JSVal
  backdropUrl : JSVal
  runtimeMs : JSVal
  resumePositionMs : JSVal
  resumePercent : JSVal
  theme : String
  userId : JSVal
  raw : JSVal
deriving DecidableEq

/-- The arrow function `it => (..card..)` of jellyfin.js lines 173–197.
It has no `try` of its own: a throw (property read on a `null`/`undefined`
element, or `toLowerCase` on a truthy non-string `Type`) propagates to
`GetOnDemand`'s `catch`. -/
def mapItemToCard (it : JSVal) : Option ODCard :=
  match it with
  | .null => none
  | .undefined => none
  | _ =>
    let runtime :=
      if truthy (getPropSafe it "RunTimeTicks") then
        ticksToMs (getPropSafe it "RunTimeTicks")
      else jsOr (getPropSafe it "RunTime") .null
    let ud := getPropSafe it "UserData"
    let resumeMs :=
      if truthy (jsAnd ud (getPropSafe ud "PlaybackPositionTicks")) then
        ticksToMs (getPropSafe ud "PlaybackPositionTicks")
      else
        if truthy (jsAnd ud (jsAnd (getPropSafe ud "PlayState")
            (getPropSafe (getPropSafe ud "PlayState") "Position"))) then
          getPropSafe (getPropSafe ud "PlayState") "Position"
        else .null
    match jsToLowerCase (jsOr (getPropSafe it "Type") (.str "")) with
    | none => none
    | some mt =>
      some {
        title := jsOr (getPropSafe it "Name") (.str "")
        mediaType := mt
        seriesTitle := jsOr (getPropSafe it "SeriesName") .null
        episodeName := jsOr (getPropSafe it "Name") .null
        season := jsOr (getPropSafe it "ParentIndexNumber") .null
        episode := jsOr (getPropSafe it "IndexNumber") .null
        itemId := jsOr (getPropSafe it "Id") .null
        posterUrl :=
          if truthy (getPropSafe it "Id") then
            .str (imageUrl (getPropSafe it "Id") (.str "Primary") .undefined)
          else .null
        backdropUrl :=
          if truthy (getPropSafe it "Id") then
            .str (imageUrl (getPropSafe it "Id") (.str "Backdrop") .undefined)
          else .null
        runtimeMs := runtime
        resumePositionMs := resumeMs
        resumePercent := progressPercentOf runtime resumeMs
        theme :=
          if getPropSafe it "Type" == .str "Movie" then "movie"
          else if getPropSafe it "Type" == .str "Episode" then "episode"
          else ""
        userId :=
          if truthy (jsAnd ud (getPropSafe ud "LastPlayedUserId")) then
            getPropSafe ud "LastPlayedUserId"
          else .null
        raw := it
      }

/-- `const limit = Math.min(200, Number(numberOnDemand) || 30)` together
with the parameter default `numberOnDemand = 20` (jellyfin.js lines
148–149): an unspecified (`undefined`) argument becomes `20` before the
coercion; `Number(..) || 30` replaces `NaN` and `0` by `30`. -/
def effectiveLimit (numberOnDemand : JSVal) : ℚ :=
  let n := if numberOnDemand == .undefined then JSVal.num 20 else numberOnDemand
  min 200 (match toNumber n with
    | some q => if q = 0 then 30 else q
    | none => 30)

/-- `(resp.data && resp.data.Items) ? resp.data.Items : (resp.data || [])`
(jellyfin.js lines 157 and 169). -/
def extractItems (resp : JSVal) : Option JSVal := do
  let d ← getPropOpt resp "data"
  if truthy d then
    pure (if truthy (getPropSafe d "Items") then getPropSafe d "Items" else d)
  else
    pure (.arr .nil)

/-- `items.length === 0`: array and string lengths; an object's own
`length` field; `undefined === 0` is false for everything else. -/
def jsLenEqZero (v : JSVal) : Bool :=
  match v with
  | .arr xs => xs == .nil
  | .str s => s.isEmpty
  | .obj fs =>
    match fs.find? "length" with
    | some (.num q) => q == 0
    | _ => false
  | _ => false

/-- `(items || []).map(it => ..)` (jellyfin.js line 173): `.map` on a
non-array throws; a throw inside the arrow propagates. -/
def itemsToCards (items : JSVal) : Option (List ODCard) :=
  match items with
  | .arr xs => xs.toList.mapM mapItemToCard
  | _ => none

/-- JavaScript ToIntegerOrInfinity on a finite number: truncation toward
zero. -/
def jsTrunc (q : ℚ) : ℤ := if 0 ≤ q then ⌊q⌋ else ⌈q⌉

/-- `cards.slice(0, limit)` (jellyfin.js line 200): a negative end counts
back from the end of the array. -/
def jsSliceTo (xs : List ODCard) (e : ℚ) : List ODCard :=
  let t := jsTrunc e
  if t < 0 then xs.take (((xs.length : ℤ) + t).toNat)
  else xs.take t.toNat

/-- Lines 152–158: `let items = []`, then if `this.userId` is truthy await
`/Users/{userId}/Items/Resume` with `Limit: limit` and extract its body. -/
def resumeStage (userId : JSVal) (fetchResume : ℚ → Option JSVal) (limit : ℚ) :
    Option JSVal :=
  if truthy userId then do
    let resp ← fetchResume limit
    extractItems resp
  else some (.arr .nil)

/-- The `try` body of `GetOnDemand` (jellyfin.js lines 151–200): resume
stage, the recently-added fallback guarded by
`(!items || items.length === 0) && (this.userId || true)` (lines 161–170),
the card map, and `cards.slice(0, limit)`.  The unused display parameters
(`playThemes`, …, `contentRatings`) never affect the result and are
omitted from the model's signature. -/
def onDemandBody (userId : JSVal) (fetchResume fetchLatest : ℚ → Option JSVal)
    (limit : ℚ) : Option (List ODCard) := do
  let items0 ← resumeStage userId fetchResume limit
  let items1 ←
    if (!truthy items0 || jsLenEqZero items0) && (truthy userId || true) then do
      let resp2 ← fetchLatest limit
      extractItems resp2
    else some items0
  let cards ← itemsToCards (jsOr items1 (.arr .nil))
  pure (jsSliceTo cards limit)

/-- `GetOnDemand` (jellyfin.js lines 148–204): the limit clamp, the `try`
body above, and the `catch` returning `[]`. -/
def GetOnDemand (userId : JSVal) (fetchResume fetchLatest : ℚ → Option JSVal)
    (numberOnDemand : JSVal) : List ODCard :=
  (onDemandBody userId fetchResume fetchLatest (effectiveLimit numberOnDemand)).getD []

/-- Spec-side definition (§4.4, §8 of the spec): the mapped and truncated
result of the generic recently-added source alone, with every failure
degrading to `[]`.  Used to state that the fallback path returns exactly
this — never a mix of the two sources. -/
def mappedLatest (fetchLatest : ℚ → Option JSVal) (limit : ℚ) : List ODCard :=
  (do
    let resp ← fetchLatest limit
    let its ← extractItems resp
    let cards ← itemsToCards (jsOr its (.arr .nil))
    pure (jsSliceTo cards limit)).getD []

/-! Concrete fixtures used by counterexamples and witnesses. -/

/-- A session object carrying only the playback-state and runtime fields
relevant to the progress/runtime derivations. -/
def mkSession (pt pos rtt rt : JSVal) : JSVal :=
  jobj [("NowPlayingItem", jobj [("RunTimeTicks", rtt), ("RunTime", rt)]),
        ("PlayState", jobj [("PositionTicks", pt), ("Position", pos)])]

/-- An upstream item whose only field is `Type`. -/
def mkItem (typ : JSVal) : JSVal := jobj [("Type", typ)]

/-- A session whose now-playing item carries only a `Type` field. -/
def mkSessionOfType (typ : JSVal) : JSVal :=
  jobj [("NowPlayingItem", mkItem typ)]

/-- A resolved `/Items/Latest` response carrying 25 minimal items. -/
def latest25 : JSVal :=
  jobj [("data", jobj [("Items", jarr (List.replicate 25 (jobj [])))])]

/-- A resolved `/Items/Latest` response carrying one minimal item. -/
def latest1 : JSVal :=
  jobj [("data", jobj [("Items", jarr [jobj []])])]

/-- A resolved `/Sessions` response with one session naming a user. -/
def sessionsResp1 : JSVal :=
  jobj [("data", jarr [jobj [("UserId", JSVal.str "u1")]])]

/-! Theorems. -/

/-- C4: `_ticksToMs` returns `floor(v / 10000)` for every numeric tick
value `v ≥ 0`, `null` on `null`/`undefined` input, `0` on numeric zero,
and `null` (without raising) on the non-numeric string `"abc"`. -/
theorem C4_ticksToMs_contract :
    (∀ v : ℚ, 0 ≤ v → ticksToMs (.num v) = .num ((⌊v / 10000⌋ : ℤ) : ℚ))
    ∧ ticksToMs .null = .null
    ∧ ticksToMs .undefined = .null
    ∧ ticksToMs (.num 0) = .num 0
    ∧ ticksToMs (.str "abc") = .null := by
  refine ⟨?_, by decide, by decide, by with_unfolding_all decide,
    by with_unfolding_all decide⟩
  intro v _hv
  by_cases h : v = 0
  · subst h
    simp [ticksToMs, truthy, toNumber]
  · simp [ticksToMs, truthy, toNumber, h]

/-- C4 witness: the contract evaluated at `v = 50000` and `"abc"`. -/
theorem C4_ticksToMs_contract_witness :
    ticksToMs (.num 50000) = .num 5 ∧ ticksToMs (.str "abc") = .null := by
  constructor
  · have h := C4_ticksToMs_contract.1 50000 (by norm_num)
    rw [h]; with_unfolding_all decide
  · exact C4_ticksToMs_contract.2.2.2.2

/-- C9: evaluating `_imageUrl` at the failing input `itemId = "42"`,
`type = "Primary"`, `maxWidth = 300` shows the size hint is appended with
a second `?` (`?maxWidth=300`), not `&maxWidth=300` as the image-reference
format (and the source's own line-49 comment) prescribe; without a size
hint the path matches the documented shape. -/
theorem C9_imageUrl_eval :
    imageUrl (.str "42") (.str "Primary") (.num 300) =
      "/jellyfin/image/42?type=Primary?maxWidth=300"
    ∧ imageUrl (.str "42") (.str "Backdrop") .undefined =
      "/jellyfin/image/42?type=Backdrop" := by
  constructor <;> decide

theorem truthy_null : truthy .null = false := rfl

theorem truthy_undefined : truthy .undefined = false := rfl

theorem truthy_num_zero : truthy (.num 0) = false := by simp [truthy]

/-- C5: the derived percentage (`progressPercent` in session cards,
`resumePercent` in item cards) is `0` when either the runtime or the
position is null, undefined, or zero; otherwise it is
`round(position / runtime * 100)`, an integer with no upper clamp (the
`150 / 100` instance evaluates to `150`); and both mappers derive their
percentage field from their runtime and position fields by exactly this
rule. -/
theorem C5_progress_percent_contract :
    (∀ r p : JSVal,
      (r = .null ∨ r = .undefined ∨ r = .num 0 ∨ p = .null ∨ p = .undefined ∨ p = .num 0) →
        progressPercentOf r p = .num 0)
    ∧ (∀ qr qp : ℚ, qr ≠ 0 → qp ≠ 0 →
        progressPercentOf (.num qr) (.num qp) = .num ((round (qp / qr * 100) : ℤ) : ℚ))
    ∧ progressPercentOf (.num 100) (.num 150) = .num 150
    ∧ (∀ s c, mapSessionToCard s = some c →
        c.progressPercent = progressPercentOf c.runtimeMs c.progressMs)
    ∧ (∀ i c, mapItemToCard i = some c →
        c.resumePercent = progressPercentOf c.runtimeMs c.resumePositionMs) := by
  refine ⟨?_, ?_, by with_unfolding_all decide, ?_, ?_⟩
  · intro r p h
    rcases h with rfl | rfl | rfl | rfl | rfl | rfl
    · simp [progressPercentOf, jsAnd, truthy]
    · simp [progressPercentOf, jsAnd, truthy]
    · simp [progressPercentOf, jsAnd, truthy]
    · by_cases hr : truthy r <;> simp [progressPercentOf, jsAnd, hr, truthy_null]
    · by_cases hr : truthy r <;> simp [progressPercentOf, jsAnd, hr, truthy_undefined]
    · by_cases hr : truthy r <;> simp [progressPercentOf, jsAnd, hr, truthy_num_zero]
  · intro qr qp h1 h2
    simp [progressPercentOf, jsAnd, truthy, toNumber, h1, h2]
  · intro s c h
    cases s
    case null => exact Option.noConfusion h
    case undefined => exact Option.noConfusion h
    all_goals
      simp only [mapSessionToCard] at h
      split at h
      · exact Option.noConfusion h
      · obtain rfl := Option.some.inj h
        rfl
  · intro i c h
    cases i
    case null => exact Option.noConfusion h
    case undefined => exact Option.noConfusion h
    all_goals
      simp only [mapItemToCard] at h
      split at h
      · exact Option.noConfusion h
      · obtain rfl := Option.some.inj h
        rfl

/-- C5 witness: the contract at concrete inputs — null runtime gives `0`,
and `50 / 200` rounds to `25`. -/
theorem C5_progress_percent_contract_witness :
    progressPercentOf .null (.num 5) = .num 0
    ∧ progressPercentOf (.num 200) (.num 50) = .num 25 := by
  constructor
  · exact C5_progress_percent_contract.1 _ _ (Or.inl rfl)
  · have h := C5_progress_percent_contract.2.1 200 50 (by norm_num) (by norm_num)
    rw [h]; with_unfolding_all decide

/-- C7 counterexample: the number `5` is not an object, yet
`_mapSessionToCard(5)` returns a card (property reads on a number yield
`undefined` without throwing), not `null` as the claim states for
non-object sessions. -/
theorem C7_counterexample_nonobject_session :
    (mapSessionToCard (.num 5)).isSome = true := by with_unfolding_all decide

/-- C7 (amended): `_mapSessionToCard` on any object session lacking the
`NowPlayingItem` field returns a card with empty `title` and null
`itemId`; on a `null` or `undefined` session (whose property reads throw)
it returns `null` rather than propagating.  But returning `null` is not
characterized by "the session is not an object": a non-object primitive
session yields the default card (the counterexample), while an object
session whose nested `Type` is a truthy non-string — here
`NowPlayingItem.Type = 5`, where `(5).toLowerCase()` throws — also
returns `null`. -/
theorem C7_mapSessionToCard_defaults :
    (∀ fs : JSFields, JSFields.find? "NowPlayingItem" fs = none →
      (mapSessionToCard (.obj fs)).map Card.title = some (.str "")
        ∧ (mapSessionToCard (.obj fs)).map Card.itemId = some .null)
    ∧ mapSessionToCard .null = none
    ∧ mapSessionToCard .undefined = none
    ∧ mapSessionToCard (mkSessionOfType (.num 5)) = none := by
  refine ⟨?_, rfl, rfl, by with_unfolding_all decide⟩
  intro fs h
  simp only [mapSessionToCard, getPropSafe, h, Option.getD]
  exact ⟨rfl, rfl⟩

/-- C7 witness: the amended theorem at the empty object. -/
theorem C7_mapSessionToCard_defaults_witness :
    (mapSessionToCard (.obj .nil)).map Card.title = some (.str "")
      ∧ (mapSessionToCard (.obj .nil)).map Card.itemId = some .null :=
  C7_mapSessionToCard_defaults.1 .nil rfl

/-- C8 counterexample: with `PlayState.PositionTicks = 0` and
`PlayState.Position = 5000`, `progressMs` is `5000` — the raw fallback is
used even though the tick field is present and converts to `0`, so a
numeric-zero tick position does not yield `0` and the fallback is not
restricted to an absent tick field. -/
theorem C8_counterexample_zero_ticks :
    (mapSessionToCard (mkSession (.num 0) (.num 5000) .undefined .undefined)).map
        Card.progressMs = some (.num 5000)
    ∧ (mapSessionToCard (mkSession (.num 0) (.num 5000) .undefined .undefined)).map
        Card.progressMs ≠ some (.num 0) := by
  have hP : (mapSessionToCard (mkSession (.num 0) (.num 5000) .undefined .undefined)).map
      Card.progressMs =
      some (jsOr (ticksToMs (.num 0))
        (if looseNeNull (.num 5000) then .num 5000 else .null)) := rfl
  have h0 : ticksToMs (.num 0) = .num 0 := by with_unfolding_all decide
  refine ⟨?_, ?_⟩ <;> rw [hP, h0] <;>
    simp [jsOr, truthy_num_zero, looseNeNull]

/-- C8 (amended): `progressMs` is the tick conversion when that conversion
is truthy (a nonzero number); when the conversion is `null` or `0` — which
includes a present tick field equal to `0` — it falls back to the raw
`Position` field when loosely non-null, else `null`.  `runtimeMs` uses the
tick conversion when the raw `RunTimeTicks` field is truthy, else
`RunTime || null`. -/
theorem C8_progress_derivation :
    ∀ pt pos rtt rt : JSVal,
      (∀ m : ℚ, ticksToMs pt = .num m → m ≠ 0 →
        (mapSessionToCard (mkSession pt pos rtt rt)).map Card.progressMs =
          some (.num m))
      ∧ ((ticksToMs pt = .null ∨ ticksToMs pt = .num 0) →
        (mapSessionToCard (mkSession pt pos rtt rt)).map Card.progressMs =
          some (if looseNeNull pos then pos else .null))
      ∧ (truthy rtt = true →
        (mapSessionToCard (mkSession pt pos rtt rt)).map Card.runtimeMs =
          some (ticksToMs rtt))
      ∧ (truthy rtt = false →
        (mapSessionToCard (mkSession pt pos rtt rt)).map Card.runtimeMs =
          some (jsOr rt .null)) := by
  intro pt pos rtt rt
  have hP : (mapSessionToCard (mkSession pt pos rtt rt)).map Card.progressMs =
      some (jsOr (ticksToMs pt) (if looseNeNull pos then pos else .null)) := rfl
  have hR : (mapSessionToCard (mkSession pt pos rtt rt)).map Card.runtimeMs =
      some (if truthy rtt then ticksToMs rtt else jsOr rt .null) := rfl
  refine ⟨?_, ?_, ?_, ?_⟩
  · intro m hm hne
    rw [hP, hm]
    simp [jsOr, truthy, hne]
  · intro hm
    rw [hP]
    rcases hm with hm | hm <;> rw [hm] <;>
      simp [jsOr, truthy_null, truthy_num_zero]
  · intro h
    rw [hR]
    simp [h]
  · intro h
    rw [hR]
    simp [h]

/-- C8 witness: a nonzero tick position (`50000` ticks → `5` ms) is
preferred over the absent raw field. -/
theorem C8_progress_derivation_witness :
    (mapSessionToCard (mkSession (.num 50000) .null .undefined .undefined)).map
      Card.progressMs = some (.num 5) :=
  (C8_progress_derivation (.num 50000) .null .undefined .undefined).1 5
    (by with_unfolding_all decide) (by norm_num)

/-- C10: in both mappers, `theme` is `"movie"` exactly when the upstream
`Type` field is the case-sensitive string `"Movie"`, `"episode"` exactly
when it is `"Episode"`, and empty otherwise; a non-empty `theme` always
equals `mediaType`; and the lower-cased upstream type `"movie"` produces a
card whose `mediaType` is `"movie"` but whose `theme` is empty. -/
theorem C10_theme_mediaType :
    (∀ (typ : JSVal) (c : Card), mapSessionToCard (mkSessionOfType typ) = some c →
      (c.theme = "movie" ↔ typ = .str "Movie")
      ∧ (c.theme = "episode" ↔ typ = .str "Episode")
      ∧ (c.theme ≠ "" → c.theme = c.mediaType))
    ∧ (∀ (typ : JSVal) (c : ODCard), mapItemToCard (mkItem typ) = some c →
      (c.theme = "movie" ↔ typ = .str "Movie")
      ∧ (c.theme = "episode" ↔ typ = .str "Episode")
      ∧ (c.theme ≠ "" → c.theme = c.mediaType))
    ∧ (mapSessionToCard (mkSessionOfType (.str "movie"))).map
        (fun c => (c.mediaType, c.theme)) = some ("movie", "") := by
  refine ⟨?_, ?_, by with_unfolding_all decide⟩
  · intro typ c h
    simp only [mkSessionOfType, mkItem, jobj, JSFields.ofList, mapSessionToCard,
      getPropSafe, JSFields.find?, jsOr, jsAnd, truthy, Option.getD] at h
    split at h
    · exact Option.noConfusion h
    · obtain rfl := Option.some.inj h
      rename_i mt heq
      by_cases hM : typ = .str "Movie"
      · subst hM
        simp [JSFields.find?, jsToLowerCase, truthy] at heq
        have hmt : mt = "movie" := by
          rw [← heq]; with_unfolding_all decide
        subst hmt
        refine ⟨by simp [JSFields.find?], by simp [JSFields.find?],
          fun _ => by simp [JSFields.find?]⟩
      · by_cases hE : typ = .str "Episode"
        · subst hE
          simp [JSFields.find?, jsToLowerCase, truthy] at heq
          have hmt : mt = "episode" := by
            rw [← heq]; with_unfolding_all decide
          subst hmt
          refine ⟨by simp [JSFields.find?], by simp [JSFields.find?],
            fun _ => by simp [JSFields.find?]⟩
        · refine ⟨?_, ?_, ?_⟩ <;> simp [JSFields.find?, hM, hE]
  · intro typ c h
    simp only [mkItem, jobj, JSFields.ofList, mapItemToCard,
      getPropSafe, JSFields.find?, jsOr, jsAnd, truthy, Option.getD] at h
    split at h
    · exact Option.noConfusion h
    · obtain rfl := Option.some.inj h
      rename_i mt heq
      by_cases hM : typ = .str "Movie"
      · subst hM
        simp [JSFields.find?, jsToLowerCase, truthy] at heq
        have hmt : mt = "movie" := by
          rw [← heq]; with_unfolding_all decide
        subst hmt
        refine ⟨by simp [JSFields.find?], by simp [JSFields.find?],
          fun _ => by simp [JSFields.find?]⟩
      · by_cases hE : typ = .str "Episode"
        · subst hE
          simp [JSFields.find?, jsToLowerCase, truthy] at heq
          have hmt : mt = "episode" := by
            rw [← heq]; with_unfolding_all decide
          subst hmt
          refine ⟨by simp [JSFields.find?], by simp [JSFields.find?],
            fun _ => by simp [JSFields.find?]⟩
        · refine ⟨?_, ?_, ?_⟩ <;> simp [JSFields.find?, hM, hE]

/-- C10 witness: the invariant evaluated at the canonical upstream type
`"Movie"`. -/
theorem C10_theme_mediaType_witness :
    (mapSessionToCard (mkSessionOfType (.str "Movie"))).map Card.theme =
      some "movie" := by
  rcases hc : mapSessionToCard (mkSessionOfType (.str "Movie")) with _ | c
  · exact absurd hc (by with_unfolding_all decide)
  · have h := ((C10_theme_mediaType.1 (.str "Movie") c hc).1).2 rfl
    simp [h]

/-- C6: with the hide-user flag set (`true` or `'true'`),
`GetNowScreening` returns exactly the cards of the same call without the
flag with the `userId` field removed (`none`, the deleted-key state) —
every other field unchanged — and every returned card has no `userId`
field. -/
theorem C6_hideUser_strips_userId :
    ∀ (resp : Option JSVal) (h : JSVal), (h = .bool true ∨ h = .str "true") →
      GetNowScreening resp h =
        (GetNowScreening resp .undefined).map (fun c => { c with userId := none })
      ∧ ∀ c ∈ GetNowScreening resp h, c.userId = none := by
  intro resp h hflag
  have hmain : GetNowScreening resp h =
      (GetNowScreening resp .undefined).map (fun c => { c with userId := none }) := by
    rcases hcards : nowScreeningCards resp with _ | cards <;>
      rcases hflag with rfl | rfl <;>
        simp [GetNowScreening, hcards]
  refine ⟨hmain, ?_⟩
  intro c hc
  rw [hmain] at hc
  rcases List.mem_map.1 hc with ⟨c0, _, rfl⟩
  rfl

/-- C6 witness: a session response with a populated `UserId`. -/
theorem C6_hideUser_strips_userId_witness :
    GetNowScreening (some sessionsResp1) (.bool true) =
      (GetNowScreening (some sessionsResp1) .undefined).map
        (fun c => { c with userId := none })
    ∧ ∀ c ∈ GetNowScreening (some sessionsResp1) (.bool true), c.userId = none :=
  C6_hideUser_strips_userId (some sessionsResp1) (.bool true) (Or.inl rfl)

/-- C3: neither operation ever surfaces an error: both return plain lists,
and on fetch-level failure (a rejected request, from network error,
timeout or non-success status) the result is the empty list — for
`GetNowScreening` always, and for `GetOnDemand` when the resume fetch
fails while a user is configured, when no user is configured and the
recently-added fetch fails, and when both fetches fail. -/
theorem C3_fetch_failure_empty :
    (∀ hideUser : JSVal, GetNowScreening none hideUser = [])
    ∧ (∀ (uid : JSVal) (fL : ℚ → Option JSVal) (n : JSVal), truthy uid = true →
        GetOnDemand uid (fun _ => none) fL n = [])
    ∧ (∀ (uid : JSVal) (fR : ℚ → Option JSVal) (n : JSVal), truthy uid = false →
        GetOnDemand uid fR (fun _ => none) n = [])
    ∧ (∀ uid n : JSVal, GetOnDemand uid (fun _ => none) (fun _ => none) n = []) := by
  refine ⟨fun _ => rfl, ?_, ?_, ?_⟩
  · intro uid fL n h
    simp [GetOnDemand, onDemandBody, resumeStage, h]
  · intro uid fR n h
    simp [GetOnDemand, onDemandBody, resumeStage, h, jsLenEqZero]
  · intro uid n
    by_cases h : truthy uid
    · simp [GetOnDemand, onDemandBody, resumeStage, h]
    · simp [GetOnDemand, onDemandBody, resumeStage, h, jsLenEqZero]

/-- C3 witness: failing fetches at concrete inputs. -/
theorem C3_fetch_failure_empty_witness :
    GetOnDemand (.str "u") (fun _ => none) (fun _ => some latest1) (.num 5) = []
    ∧ GetOnDemand .null (fun _ => some latest1) (fun _ => none) (.num 5) = [] :=
  ⟨C3_fetch_failure_empty.2.1 (.str "u") _ (.num 5) (by decide),
   C3_fetch_failure_empty.2.2.1 .null _ (.num 5) (by decide)⟩

theorem onDemandBody_shape {uid : JSVal} {fR fL : ℚ → Option JSVal} {L : ℚ}
    {l : List ODCard} (h : onDemandBody uid fR fL L = some l) :
    ∃ cs, l = jsSliceTo cs L := by
  simp only [onDemandBody, Option.bind_eq_bind', Option.bind_eq_some] at h
  obtain ⟨i0, _, h⟩ := h
  split at h
  · simp only [Option.bind_eq_bind', Option.bind_eq_some] at h
    obtain ⟨r2, _, h⟩ := h
    obtain ⟨i1, _, h⟩ := h
    obtain ⟨cs, _, h⟩ := h
    exact ⟨cs, (Option.some.inj h).symm⟩
  · simp only [Option.bind_eq_bind', Option.bind_eq_some] at h
    obtain ⟨i1, _, h⟩ := h
    obtain ⟨cs, _, h⟩ := h
    exact ⟨cs, (Option.some.inj h).symm⟩

theorem jsSliceTo_length_le (xs : List ODCard) (e : ℚ) (h0 : 0 ≤ e)
    (h200 : e ≤ 200) : (jsSliceTo xs e).length ≤ 200 := by
  have hfl : (0 : ℤ) ≤ ⌊e⌋ := Int.floor_nonneg.mpr h0
  have hfl2 : ⌊e⌋ ≤ 200 := by
    calc ⌊e⌋ ≤ ⌊(200 : ℚ)⌋ := Int.floor_le_floor h200
    _ = 200 := by norm_num
  simp only [jsSliceTo, jsTrunc, if_pos h0, if_neg (not_lt.2 hfl)]
  calc (xs.take ⌊e⌋.toNat).length ≤ ⌊e⌋.toNat := by simp [List.length_take]
  _ ≤ 200 := by omega

/-- C1 counterexample: with `count` unspecified, the limit is the
parameter default `20`, not `30` (25 available recently-added items yield
20 cards, where the claim's `count` semantics would give 25); and a
negative count is not clamped into `[0, 200]`
(`effectiveLimit (-5) = -5`). -/
theorem C1_counterexample_limit_defaults :
    (GetOnDemand .null (fun _ => none) (fun _ => some latest25) .undefined).length = 20
    ∧ effectiveLimit .undefined = 20
    ∧ effectiveLimit (.num (-5)) = -5 := by
  refine ⟨by with_unfolding_all decide, by with_unfolding_all decide,
    by with_unfolding_all decide⟩

/-- C1 (amended): the effective limit is
`min(200, Number(count) || 30)` with the parameter default `20` when
`count` is unspecified — so `30` applies only to a non-numeric or zero
`count`, there is no lower clamp at `0`, and an unspecified `count` gives
`20`.  Both upstream requests are issued with exactly this limit, the
limit never exceeds `200`, and whenever the limit is nonnegative the
returned sequence has at most `200` cards. -/
theorem C1_limit_clamp :
    ∀ (uid : JSVal) (fR fL : ℚ → Option JSVal) (n : JSVal),
      GetOnDemand uid fR fL n =
        GetOnDemand uid (fun _ => fR (effectiveLimit n))
          (fun _ => fL (effectiveLimit n)) n
      ∧ effectiveLimit n ≤ 200
      ∧ (0 ≤ effectiveLimit n → (GetOnDemand uid fR fL n).length ≤ 200) := by
  intro uid fR fL n
  refine ⟨rfl, min_le_left _ _, ?_⟩
  intro h0
  unfold GetOnDemand
  rcases hb : onDemandBody uid fR fL (effectiveLimit n) with _ | l
  · simp
  · obtain ⟨cs, rfl⟩ := onDemandBody_shape hb
    simpa using jsSliceTo_length_le cs _ h0 (min_le_left _ _)

/-- C1 witness: `count = 500` is clamped, and the result stays within 200
cards. -/
theorem C1_limit_clamp_witness :
    (GetOnDemand .null (fun _ => none) (fun _ => some latest25)
      (.num 500)).length ≤ 200 :=
  (C1_limit_clamp .null _ _ (.num 500)).2.2 (by with_unfolding_all decide)

theorem resume_empty_falls_back {uid : JSVal} {fR fL : ℚ → Option JSVal}
    {L : ℚ} (h : resumeStage uid fR L = some (.arr .nil)) :
    (onDemandBody uid fR fL L).getD [] = mappedLatest fL L := by
  unfold onDemandBody
  rw [h]
  simp only [Option.bind_eq_bind', Option.some_bind, Bool.or_true, Bool.and_true,
    if_true]
  rfl

/-- C2 counterexample: with a configured user, a failing resume fetch
makes `GetOnDemand` return `[]` without consulting the recently-added
source — even though the very same recently-added fetch, when the resume
step is skipped (no user), produces a non-empty result. -/
theorem C2_counterexample_resume_failure :
    GetOnDemand (.str "u") (fun _ => none) (fun _ => some latest1) (.num 10) = []
    ∧ GetOnDemand .null (fun _ => none) (fun _ => some latest1) (.num 10) ≠ [] := by
  constructor <;> with_unfolding_all decide

/-- C2 (amended): when the resume step yields zero items because no user
identity is configured, or because the resume fetch succeeded with an
empty item list, the pipeline returns exactly the mapped and truncated
recently-added result (never a mix of the two sources); but when the
resume fetch itself fails, the whole operation returns the empty sequence
without fetching the recently-added source. -/
theorem C2_resume_fallback :
    ∀ (uid : JSVal) (fR fL : ℚ → Option JSVal) (n : JSVal),
      (truthy uid = false →
        GetOnDemand uid fR fL n = mappedLatest fL (effectiveLimit n))
      ∧ (∀ r, fR (effectiveLimit n) = some r →
          extractItems r = some (.arr .nil) →
          GetOnDemand uid fR fL n = mappedLatest fL (effectiveLimit n))
      ∧ (truthy uid = true → fR (effectiveLimit n) = none →
          GetOnDemand uid fR fL n = []) := by
  intro uid fR fL n
  refine ⟨?_, ?_, ?_⟩
  · intro h
    exact resume_empty_falls_back (by simp [resumeStage, h])
  · intro r hr hx
    by_cases h : truthy uid
    · exact resume_empty_falls_back (by simp [resumeStage, h, hr, hx])
    · exact resume_empty_falls_back (by simp [resumeStage, h])
  · intro h hr
    simp [GetOnDemand, onDemandBody, resumeStage, h, hr]

/-- C2 witness: no configured user, the fallback equals the mapped and
truncated recently-added result. -/
theorem C2_resume_fallback_witness :
    GetOnDemand .null (fun _ => none) (fun _ => some latest1) (.num 10) =
      mappedLatest (fun _ => some latest1) (effectiveLimit (.num 10)) :=
  (C2_resume_fallback .null _ _ (.num 10)).1 (by decide)

end Posterr.Jellyfin
